import Mathlib

/-!
# A model of the SDL QSA (QNX) audio backend

Shallow embedding of `src/audio/qnx/SDL_qsa_audio.c`: the format table and
format negotiation of `QSA_OpenDevice` / `QnxFormatToSDLFormat`, the
write/retry loop of `QSA_PlayDevice`, the teardown of `QSA_CloseDevice`,
the wait of `QSA_WaitDevice`, and the per-device probe of
`QSA_DetectDevices`.  Native calls are modelled by explicit oracles (lists
of per-iteration outcomes), machine integers by `Int`/`Nat`.
-/

namespace QSA

/-! ## Sample-format codes

Modelled from the spec: the generic codes come from the host header
`SDL3/SDL_audio.h` and the native codes from the QNX `<sys/asoundlib.h>`
collaborator header, neither of which is under `src/`.  The spec only
fixes that the eight table entries are pairwise distinct codes
("each generic format maps to exactly one native format and vice versa");
the concrete values below are the headers= published ones. -/

def SDL_AUDIO_U8 : Nat := 0x0008

def SDL_AUDIO_S8 : Nat := 0x8008

def SDL_AUDIO_S16LSB : Nat := 0x8010

def SDL_AUDIO_S16MSB : Nat := 0x9010

def SDL_AUDIO_S32LSB : Nat := 0x8020

def SDL_AUDIO_S32MSB : Nat := 0x9020

def SDL_AUDIO_F32LSB : Nat := 0x8120

def SDL_AUDIO_F32MSB : Nat := 0x9120

/-- `SDL_AUDIO_S16` is the native-byte-order alias; QNX Neutrino targets
are little-endian, so it names the LE format (itself a table entry). -/
def SDL_AUDIO_S16 : Nat := SDL_AUDIO_S16LSB

def SND_PCM_SFMT_S8 : Int := 0

def SND_PCM_SFMT_U8 : Int := 1

def SND_PCM_SFMT_S16_LE : Int := 2

def SND_PCM_SFMT_S16_BE : Int := 3

def SND_PCM_SFMT_S32_LE : Int := 10

def SND_PCM_SFMT_S32_BE : Int := 11

def SND_PCM_SFMT_FLOAT_LE : Int := 14

def SND_PCM_SFMT_FLOAT_BE : Int := 15

/-- A native format outside the eight-entry table (mu-law). -/
def SND_PCM_SFMT_MU_LAW : Int := 20

/-! ## The format table (`SDL_qsa_audio.c:226-242` and `297-313`)

The `CHECKFMT` case ladder of `QSA_OpenDevice` maps a generic format to
its native format; the case ladder of `QnxFormatToSDLFormat` maps a native
format back, with the `default:` of the latter falling through to
`return SDL_AUDIO_S16;  // oh well.` -/

/-- The generic-to-native direction: the `switch (test_format)` ladder in
`QSA_OpenDevice` (lines 228-240).  `none` is the `default: continue` case:
a generic format with no table entry selects nothing. -/
def sdlFormatToQsa (f : Nat) : Option Int :=
  if f = SDL_AUDIO_U8 then some SND_PCM_SFMT_U8
  else if f = SDL_AUDIO_S8 then some SND_PCM_SFMT_S8
  else if f = SDL_AUDIO_S16LSB then some SND_PCM_SFMT_S16_LE
  else if f = SDL_AUDIO_S16MSB then some SND_PCM_SFMT_S16_BE
  else if f = SDL_AUDIO_S32LSB then some SND_PCM_SFMT_S32_LE
  else if f = SDL_AUDIO_S32MSB then some SND_PCM_SFMT_S32_BE
  else if f = SDL_AUDIO_F32LSB then some SND_PCM_SFMT_FLOAT_LE
  else if f = SDL_AUDIO_F32MSB then some SND_PCM_SFMT_FLOAT_BE
  else none

/-- The native-to-generic direction: `QnxFormatToSDLFormat` (lines 297-313).
Total, because the source function is: its `default:` branch returns
`SDL_AUDIO_S16` for every unlisted native format. -/
def QnxFormatToSDLFormat (qnxfmt : Int) : Nat :=
  if qnxfmt = SND_PCM_SFMT_U8 then SDL_AUDIO_U8
  else if qnxfmt = SND_PCM_SFMT_S8 then SDL_AUDIO_S8
  else if qnxfmt = SND_PCM_SFMT_S16_LE then SDL_AUDIO_S16LSB
  else if qnxfmt = SND_PCM_SFMT_S16_BE then SDL_AUDIO_S16MSB
  else if qnxfmt = SND_PCM_SFMT_S32_LE then SDL_AUDIO_S32LSB
  else if qnxfmt = SND_PCM_SFMT_S32_BE then SDL_AUDIO_S32MSB
  else if qnxfmt = SND_PCM_SFMT_FLOAT_LE then SDL_AUDIO_F32LSB
  else if qnxfmt = SND_PCM_SFMT_FLOAT_BE then SDL_AUDIO_F32MSB
  else SDL_AUDIO_S16

/-- The eight native codes the table lists, in source order. -/
def qsaTableNative : List Int :=
  [SND_PCM_SFMT_U8, SND_PCM_SFMT_S8, SND_PCM_SFMT_S16_LE, SND_PCM_SFMT_S16_BE,
   SND_PCM_SFMT_S32_LE, SND_PCM_SFMT_S32_BE, SND_PCM_SFMT_FLOAT_LE, SND_PCM_SFMT_FLOAT_BE]

/-- The eight generic codes the table lists, in source order. -/
def sdlTableFormats : List Nat :=
  [SDL_AUDIO_U8, SDL_AUDIO_S8, SDL_AUDIO_S16LSB, SDL_AUDIO_S16MSB,
   SDL_AUDIO_S32LSB, SDL_AUDIO_S32MSB, SDL_AUDIO_F32LSB, SDL_AUDIO_F32MSB]

/-- Outcome of the format-negotiation step of `QSA_OpenDevice`. -/
inductive FormatNegotiation
  | selected (fmt : Nat) (qsafmt : Int)
  /-- `SDL_SetError("QSA: Couldnt find any hardware audio formats")`,
  reached when `test_format` is still 0 after the candidate walk. -/
  | noCompatibleFormat
deriving DecidableEq

/-- The candidate walk of `QSA_OpenDevice` (lines 224-242): scan the
closest-format list in order; the first candidate with a table entry is
selected together with its native format, a candidate without one is
skipped (`default: continue`). -/
def negotiateFormat : List Nat → Option (Nat × Int)
  | [] => none
  | f :: rest =>
    match sdlFormatToQsa f with
    | some q => some (f, q)
    | none => negotiateFormat rest

/-- Lines 244-249: an empty selection is the configuration error, a
non-empty one sets `device->spec.format` and `cparams.format.format`. -/
def QSA_OpenDevice_format (closefmts : List Nat) : FormatNegotiation :=
  match negotiateFormat closefmts with
  | some r => FormatNegotiation.selected r.1 r.2
  | none => FormatNegotiation.noCompatibleFormat

theorem negotiateFormat_none_iff (l : List Nat) :
    negotiateFormat l = none ↔ ∀ g ∈ l, sdlFormatToQsa g = none := by
  induction l with
  | nil => simp [negotiateFormat]
  | cons a rest ih =>
    cases h : sdlFormatToQsa a with
    | some q =>
      simp only [negotiateFormat, h]
      constructor
      · intro hc; exact absurd hc (by simp)
      · intro hall
        have := hall a (by simp)
        rw [h] at this; exact absurd this (by simp)
    | none =>
      simp only [negotiateFormat, h, ih]
      constructor
      · intro hall g hg
        rcases List.mem_cons.mp hg with rfl | hg
        · exact h
        · exact hall g hg
      · intro hall g hg; exact hall g (List.mem_cons_of_mem _ hg)

theorem negotiateFormat_some (l : List Nat) (f : Nat) (q : Int)
    (hsome : negotiateFormat l = some (f, q)) :
    sdlFormatToQsa f = some q ∧
    ∃ pre post, l = pre ++ f :: post ∧ ∀ g ∈ pre, sdlFormatToQsa g = none := by
  induction l with
  | nil => simp [negotiateFormat] at hsome
  | cons a rest ih =>
    cases h : sdlFormatToQsa a with
    | some q0 =>
      simp only [negotiateFormat, h] at hsome
      obtain ⟨rfl, rfl⟩ : a = f ∧ q0 = q := by
        constructor <;> [exact congrArg Prod.fst (Option.some.inj hsome);
                         exact congrArg Prod.snd (Option.some.inj hsome)]
      exact ⟨h, [], rest, rfl, by simp⟩
    | none =>
      simp only [negotiateFormat, h] at hsome
      obtain ⟨hf, pre, post, rfl, hpre⟩ := ih hsome
      refine ⟨hf, a :: pre, post, rfl, ?_⟩
      intro g hg
      rcases List.mem_cons.mp hg with rfl | hg
      · exact h
      · exact hpre g hg

/-- C2: negotiation walks the ordered candidate list and selects the first
candidate with a native table mapping, never a later one; if no candidate
maps, it fails with the no-compatible-format configuration error and
selects no format. -/
theorem negotiation_selects_first_mappable (l : List Nat) :
    (negotiateFormat l = none ↔ ∀ g ∈ l, sdlFormatToQsa g = none) ∧
    ((∀ g ∈ l, sdlFormatToQsa g = none) →
      QSA_OpenDevice_format l = FormatNegotiation.noCompatibleFormat) ∧
    (∀ f q, negotiateFormat l = some (f, q) →
      QSA_OpenDevice_format l = FormatNegotiation.selected f q ∧
      sdlFormatToQsa f = some q ∧
      ∃ pre post, l = pre ++ f :: post ∧ ∀ g ∈ pre, sdlFormatToQsa g = none) := by
  refine ⟨negotiateFormat_none_iff l, ?_, ?_⟩
  · intro hall
    have hnone := (negotiateFormat_none_iff l).mpr hall
    simp [QSA_OpenDevice_format, hnone]
  · intro f q hsome
    refine ⟨by simp [QSA_OpenDevice_format, hsome], negotiateFormat_some l f q hsome⟩

/-- C3: the format table is a bijection on its eight entries: both
round-trips are the identity on the listed formats. -/
theorem formatTable_roundtrip :
    qsaTableNative.length = 8 ∧ sdlTableFormats.length = 8 ∧
    (∀ q ∈ qsaTableNative, sdlFormatToQsa (QnxFormatToSDLFormat q) = some q) ∧
    (∀ g ∈ sdlTableFormats, (sdlFormatToQsa g).map QnxFormatToSDLFormat = some g) := by
  decide

/-- C8 counterexample: mu-law is outside the eight-entry table, yet the
native-to-generic mapping sends it to `SDL_AUDIO_S16`, a supported generic
format, instead of rejecting it. -/
theorem unlisted_native_approximated :
    SND_PCM_SFMT_MU_LAW ∉ qsaTableNative ∧
    QnxFormatToSDLFormat SND_PCM_SFMT_MU_LAW ∈ sdlTableFormats := by
  decide

/-- C8 amended: a generic format outside the table is rejected by
negotiation (no entry, and an all-unlisted candidate list fails), while
the native-to-generic mapping sends every unlisted native format to the
default `SDL_AUDIO_S16` rather than rejecting it. -/
theorem unsupported_formats_behaviour :
    (∀ g : Nat, g ∉ sdlTableFormats → sdlFormatToQsa g = none) ∧
    (∀ l : List Nat, (∀ g ∈ l, g ∉ sdlTableFormats) → negotiateFormat l = none) ∧
    (∀ q : Int, q ∉ qsaTableNative → QnxFormatToSDLFormat q = SDL_AUDIO_S16) := by
  have hgen : ∀ g : Nat, g ∉ sdlTableFormats → sdlFormatToQsa g = none := by
    intro g hg
    unfold sdlFormatToQsa
    split_ifs with h1 h2 h3 h4 h5 h6 h7 h8
    all_goals first
      | rfl
      | (exfalso; apply hg; simp_all [sdlTableFormats])
  refine ⟨hgen, ?_, ?_⟩
  · intro l hl
    exact (negotiateFormat_none_iff l).mpr fun g hg => hgen g (hl g hg)
  · intro q hq
    unfold QnxFormatToSDLFormat
    split_ifs with h1 h2 h3 h4 h5 h6 h7 h8
    all_goals first
      | rfl
      | (exfalso; apply hq; simp_all [qsaTableNative])

/-! ## The write/retry loop of `QSA_PlayDevice` (lines 113-169)

The source loop reads, per iteration: the shutdown flag (loop condition),
the return of `snd_pcm_plugin_write` together with `errno`, and, on the
`EINVAL`/`EIO` branch, the result of `snd_pcm_plugin_status` and (on
underrun/ready) of `snd_pcm_plugin_prepare`.  An `IterEnv` packages those
per-iteration native outcomes; the loop consumes one entry per iteration
and an exhausted oracle with bytes still owed yields `none` (the loop
would keep iterating).

Note: as written, line 122 ends in a stray `;`, so the `while` loop of
the source has an empty body; `playLoopAsWritten` below models that text.
`playGo` models the loop with its condition governing the body, which is
the reading the spec defines and the rest of the function assumes. -/

inductive Errno
  | EAGAIN
  | EWOULDBLOCK
  | EINVAL
  | EIO
  /-- any errno other than the four the loop distinguishes (e.g. EPIPE) -/
  | EPIPE
deriving DecidableEq

/-- The channel status reported by `snd_pcm_plugin_status`; the loop only
distinguishes underrun and ready from everything else. -/
inductive ChanStatus
  | underrun
  | ready
  | running
  | notready
  | overrun
deriving DecidableEq

/-- Outcome of `snd_pcm_plugin_status`: a negative return, or the status
field it filled in. -/
inductive StatusQuery
  | fail
  | ok (st : ChanStatus)
deriving DecidableEq

structure IterEnv where
  /-- `SDL_GetAtomicInt(&device->shutdown)` at this iteration's condition poll -/
  sd : Bool
  /-- return of `snd_pcm_plugin_write` (bytes transferred) -/
  bw : Int
  /-- `errno` after that write -/
  errno : Errno
  /-- outcome of `snd_pcm_plugin_status`, if this iteration queries it -/
  st : StatusQuery
  /-- return of `snd_pcm_plugin_prepare`, if this iteration calls it -/
  prep : Int
deriving DecidableEq

structure PlayResult where
  /-- the boolean `QSA_PlayDevice` returns -/
  ret : Bool
  /-- net advance of the `buffer` pointer, in bytes, from its initial value -/
  offset : Int
  /-- `towrite` at return -/
  towrite : Int
  /-- every attempted native write: (buffer offset at the call, bytes requested) -/
  writes : List (Int × Int)
deriving DecidableEq

/-- The retry loop (lines 122-168), with the loop condition governing the
body.  `channels` is `device->spec.channels`, `twait` is
`device->hidden->timeout_on_wait`. -/
def playGo (channels : Int) (twait : Bool) :
    Int → Int → List (Int × Int) → List IterEnv → Option PlayResult
  | towrite, offset, ws, [] =>
    if towrite > 0 then none
    else some ⟨decide (towrite = 0), offset, towrite, ws⟩
  | towrite, offset, ws, e :: rest =>
    if towrite > 0 ∧ e.sd = false then
      let ws2 := ws ++ [(offset, towrite)]
      if e.bw ≠ towrite then
        if e.errno = Errno.EAGAIN ∧ e.bw = 0 ∧ twait then
          -- stalled-device short-circuit: return true, try again next period
          some ⟨true, offset, towrite, ws2⟩
        else if e.errno = Errno.EAGAIN ∨ e.errno = Errno.EWOULDBLOCK then
          -- SDL_Delay(1); towrite -= bw; buffer += bw * channels; continue
          playGo channels twait (towrite - e.bw) (offset + e.bw * channels) ws2 rest
        else if e.errno = Errno.EINVAL ∨ e.errno = Errno.EIO then
          match e.st with
          | StatusQuery.fail => some ⟨false, offset, towrite, ws2⟩
          | StatusQuery.ok s =>
            if s = ChanStatus.underrun ∨ s = ChanStatus.ready then
              if e.prep < 0 then some ⟨false, offset, towrite, ws2⟩
              else playGo channels twait towrite offset ws2 rest
            else
              -- other statuses fall through to the `continue` of line 156
              playGo channels twait towrite offset ws2 rest
        else
          some ⟨false, offset, towrite, ws2⟩
      else
        -- we wrote all remaining data
        playGo channels twait (towrite - e.bw) (offset + e.bw * channels) ws2 rest
    else
      -- loop exit: return (towrite == 0)
      some ⟨decide (towrite = 0), offset, towrite, ws⟩

/-- `QSA_PlayDevice` (lines 113-169): the entry guard on shutdown and a
missing `hidden` block, then the loop.  At an entry-guard return every
byte is still owed, recorded as `towrite = buflen`. -/
def QSA_PlayDevice (channels : Int) (twait sdEntry hiddenNull : Bool)
    (buflen : Int) (env : List IterEnv) : Option PlayResult :=
  if sdEntry = true ∨ hiddenNull = true then some ⟨true, 0, buflen, []⟩
  else playGo channels twait buflen 0 [] env

/-- The loop as the source text has it: the stray `;` on line 122 gives
the `while` an empty body, so an iteration only re-polls the condition and
no write is ever attempted by the loop itself.  The oracle is the sequence
of shutdown polls; `none` means the poll sequence was exhausted with the
condition still true (the spin continues). -/
def playLoopAsWritten (towrite : Int) : List Bool → Option Unit
  | [] => if towrite > 0 then none else some ()
  | sd :: rest =>
    if towrite > 0 ∧ sd = false then playLoopAsWritten towrite rest
    else some ()

/-- C1: evaluation of the loop as written.  With bytes owed and the
shutdown signal never set, the empty-bodied `while` of line 122 spins
forever without attempting a native write, however many condition polls
elapse; the claimed conditionally-iterating write loop never starts. -/
theorem play_as_written_spins (n : Nat) :
    playLoopAsWritten 4096 (List.replicate n false) = none := by
  induction n with
  | zero => simp [playLoopAsWritten]
  | succ k ih => simpa [playLoopAsWritten, List.replicate_succ] using ih

/-- C7: a native write transferring zero bytes with errno `EAGAIN` while
the timeout-on-wait flag is set makes `play` return success at once: one
write attempt is recorded, nothing is consumed, and the remaining oracle
(`rest`) is never consulted. -/
theorem play_stalled_shortcircuit (channels buflen : Int) (e : IterEnv)
    (rest : List IterEnv) (hlen : 0 < buflen) (hsd : e.sd = false)
    (hbw : e.bw = 0) (herr : e.errno = Errno.EAGAIN) :
    QSA_PlayDevice channels true false false buflen (e :: rest) =
      some ⟨true, 0, buflen, [(0, buflen)]⟩ := by
  have hne : (0 : Int) ≠ buflen := by omega
  simp [QSA_PlayDevice, playGo, hlen, hsd, hbw, herr, hne]

theorem play_stalled_shortcircuit_witness :
    QSA_PlayDevice 2 true false false 4096
      [⟨false, 0, Errno.EAGAIN, StatusQuery.ok ChanStatus.running, 0⟩] =
      some ⟨true, 0, 4096, [(0, 4096)]⟩ :=
  play_stalled_shortcircuit 2 4096 _ [] (by decide) rfl rfl rfl

/-- C4 counterexample: a write failing with `EINVAL`, followed by a status
query that succeeds and reports `running` (neither underrun nor ready),
does not make `play` fail: the loop retries the write and, when the retry
completes the buffer, the call returns success. -/
theorem play_other_status_not_fatal :
    QSA_PlayDevice 1 false false false 8
      [⟨false, 0, Errno.EINVAL, StatusQuery.ok ChanStatus.running, 0⟩,
       ⟨false, 8, Errno.EAGAIN, StatusQuery.ok ChanStatus.running, 0⟩] =
      some ⟨true, 8, 0, [(0, 8), (0, 8)]⟩ := by
  decide

/-- C4 amended: on the `EINVAL`/`EIO` branch, a failed status query is
fatal, a failed re-prepare after underrun/ready is fatal, and any other
reported status makes the loop retry the write (without re-prepare)
rather than fail. -/
theorem play_status_branch (channels : Int) (twait : Bool)
    (towrite offset : Int) (ws : List (Int × Int)) (e : IterEnv)
    (rest : List IterEnv) (hrun : 0 < towrite) (hsd : e.sd = false)
    (hbw : e.bw ≠ towrite)
    (herr : e.errno = Errno.EINVAL ∨ e.errno = Errno.EIO) :
    (e.st = StatusQuery.fail →
      playGo channels twait towrite offset ws (e :: rest) =
        some ⟨false, offset, towrite, ws ++ [(offset, towrite)]⟩) ∧
    (∀ s, e.st = StatusQuery.ok s →
      (s = ChanStatus.underrun ∨ s = ChanStatus.ready) → e.prep < 0 →
      playGo channels twait towrite offset ws (e :: rest) =
        some ⟨false, offset, towrite, ws ++ [(offset, towrite)]⟩) ∧
    (∀ s, e.st = StatusQuery.ok s →
      s ≠ ChanStatus.underrun → s ≠ ChanStatus.ready →
      playGo channels twait towrite offset ws (e :: rest) =
        playGo channels twait towrite offset (ws ++ [(offset, towrite)]) rest) := by
  have heag : ¬(e.errno = Errno.EAGAIN ∧ e.bw = 0 ∧ twait) := by
    rcases herr with h | h <;> simp [h]
  have heag2 : ¬(e.errno = Errno.EAGAIN ∨ e.errno = Errno.EWOULDBLOCK) := by
    rcases herr with h | h <;> simp [h]
  refine ⟨?_, ?_, ?_⟩
  · intro hst
    simp [playGo, hrun, hsd, hbw, heag, heag2, herr, hst]
  · intro s hst hs hprep
    simp [playGo, hrun, hsd, hbw, heag, heag2, herr, hst, hs, hprep]
  · intro s hst hs1 hs2
    simp [playGo, hrun, hsd, hbw, heag, heag2, herr, hst, hs1, hs2]

theorem play_status_branch_witness :
    playGo 1 false 8 0 [] [⟨false, 0, Errno.EINVAL, StatusQuery.fail, 0⟩] =
      some ⟨false, 0, 8, [(0, 8)]⟩ :=
  (play_status_branch 1 false 8 0 []
      ⟨false, 0, Errno.EINVAL, StatusQuery.fail, 0⟩ []
      (by decide) rfl (by decide) (Or.inl rfl)).1 rfl

/-- C5: evaluation at the failing input.  With two channels, a buffer of
8 bytes and a first write that transfers 4 bytes with `EAGAIN`, the loop
decreases `towrite` by 4 but advances the buffer pointer by
`bw * channels = 8` bytes (line 138), so the second write is attempted at
offset 8: bytes 4..7 of the callers buffer are skipped and the write runs
past the 8-byte range.  Exact-byte advancement would retry at offset 4. -/
theorem play_cursor_advances_by_channels :
    QSA_PlayDevice 2 false false false 8
      [⟨false, 4, Errno.EAGAIN, StatusQuery.ok ChanStatus.running, 0⟩,
       ⟨false, 4, Errno.EAGAIN, StatusQuery.ok ChanStatus.running, 0⟩] =
      some ⟨true, 16, 0, [(0, 8), (8, 4)]⟩ := by
  decide

/-! ## `QSA_CloseDevice` (lines 176-191)

The per-device state block `device->hidden` and the teardown actions the
close path performs.  `SDL_free` on a null pointer is a no-op, so a free
action is recorded only for a non-null pointer. -/

structure PrivateAudioData where
  /-- `audio_handle`; `none` models a null handle -/
  audio_handle : Option Int
  /-- `pcm_buf`; `none` models a null buffer pointer -/
  pcm_buf : Option Int
deriving DecidableEq

inductive CloseAction
  | flush
  | closeHandle
  | freeBuf
  | freeHidden
deriving DecidableEq

/-- `QSA_CloseDevice`: when `hidden` is non-null, flush (only on NTO
versions before 7.10) and close the handle if one is held, free the
buffer, free the state block and null `device->hidden`; otherwise do
nothing.  Returns the new `device->hidden` and the teardown actions. -/
def QSA_CloseDevice (hidden : Option PrivateAudioData) (ntoBefore710 : Bool) :
    Option PrivateAudioData × List CloseAction :=
  match hidden with
  | none => (none, [])
  | some h =>
    (none,
      (match h.audio_handle with
       | none => []
       | some _ =>
         (if ntoBefore710 then [CloseAction.flush] else []) ++ [CloseAction.closeHandle]) ++
      (match h.pcm_buf with
       | none => []
       | some _ => [CloseAction.freeBuf]) ++
      [CloseAction.freeHidden])

/-- C9: close is idempotent and safe on partial state: it always leaves
`hidden` null, a second close performs no action, the output buffer is
freed at most once across a call, and a state left without a native
handle or without a buffer triggers no handle close or buffer free. -/
theorem close_idempotent (hidden : Option PrivateAudioData) (b : Bool) :
    (QSA_CloseDevice hidden b).1 = none ∧
    QSA_CloseDevice (QSA_CloseDevice hidden b).1 b = (none, []) ∧
    List.count CloseAction.freeBuf (QSA_CloseDevice hidden b).2 ≤ 1 ∧
    (∀ h, hidden = some h → h.pcm_buf = none →
      CloseAction.freeBuf ∉ (QSA_CloseDevice hidden b).2) ∧
    (∀ h, hidden = some h → h.audio_handle = none →
      CloseAction.closeHandle ∉ (QSA_CloseDevice hidden b).2) := by
  cases hidden with
  | none => simp [QSA_CloseDevice]
  | some h =>
    obtain ⟨ah, pb⟩ := h
    cases ah <;> cases pb <;> cases b <;>
      simp [QSA_CloseDevice, List.count_cons]

/-! ## `QSA_WaitDevice` (lines 89-111)

`SDL_IOReady` returns -1 on poll failure, 0 on timeout, and a positive
count when the descriptor is ready.  The switch maps -1 to a fatal
`false` return (flag untouched), 0 to setting `timeout_on_wait`, and
everything else to clearing it. -/

/-- `QSA_WaitDevice`, as a function of the `SDL_IOReady` result and the
current `timeout_on_wait` flag; returns (return value, new flag). -/
def QSA_WaitDevice (ioReady : Int) (timeoutOnWait : Bool) : Bool × Bool :=
  if ioReady = -1 then (false, timeoutOnWait)
  else if ioReady = 0 then (true, true)
  else (true, false)

/-- The `timeout_on_wait` flag after a sequence of waits whose
`SDL_IOReady` results are given in order. -/
def waitFlagAfter (flag : Bool) : List Int → Bool
  | [] => flag
  | r :: rest => waitFlagAfter (QSA_WaitDevice r flag).2 rest

theorem waitFlagAfter_append (flag : Bool) (xs ys : List Int) :
    waitFlagAfter flag (xs ++ ys) = waitFlagAfter (waitFlagAfter flag xs) ys := by
  induction xs generalizing flag with
  | nil => simp [waitFlagAfter]
  | cons x xs ih => simp [waitFlagAfter, ih]

/-- C10: a wait that finds the descriptor ready (positive `SDL_IOReady`
result) returns success and resets `timeout_on_wait` to false, whatever
the flag held; hence after any wait history ending in a ready wait the
flag is false, so the stalled-device short-circuit of `play` can only be
armed by the most recent wait having timed out. -/
theorem wait_ready_clears_timeout_flag (r : Int) (flag : Bool)
    (rs : List Int) (hr : 0 < r) :
    QSA_WaitDevice r flag = (true, false) ∧
    waitFlagAfter flag (rs ++ [r]) = false := by
  have h1 : r ≠ -1 := by omega
  have h0 : r ≠ 0 := by omega
  constructor
  · simp [QSA_WaitDevice, h1, h0]
  · rw [waitFlagAfter_append]
    simp [waitFlagAfter, QSA_WaitDevice, h1, h0]

theorem wait_ready_clears_timeout_flag_witness :
    QSA_WaitDevice 1 true = (true, false) ∧
    waitFlagAfter true ([0] ++ [1]) = false :=
  wait_ready_clears_timeout_flag 1 true [0] (by decide)

/-! ## The per-device probe of `QSA_DetectDevices` (lines 340-397)

One iteration of the inner device loop for a given `(card, deviceno)`:
read the card long name, tentatively open the device for playback, query
the channel setup for the advisory spec, close the tentative handle, and
report the device when the close succeeded.  The handle the source text
passes to `snd_pcm_plugin_setup` at line 372 is
`device->hidden->audio_handle` — no `device` is in scope in
`QSA_DetectDevices`, so the model exposes that expression as the separate
parameter `deviceHiddenHandle` rather than the tentative `handle`. -/

inductive NativeCall
  | cardLongname (card : Int)
  | pcmOpen (card : Int) (dev : Nat)
  | pluginSetup (handle : Int)
  | pcmClose (handle : Int)
deriving DecidableEq

structure ProbeEnv where
  /-- `snd_card_get_longname` returned EOK -/
  longnameOk : Bool
  /-- return of the tentative `snd_pcm_open` (EOK = 0) -/
  openStatus : Int
  /-- the handle that open stores on success -/
  tentativeHandle : Int
  /-- return of `snd_pcm_plugin_setup` -/
  setupStatus : Int
  /-- (format, channels, rate) read from `csetup` when setup succeeds -/
  setupSpec : Nat × Nat × Nat
  /-- return of `snd_pcm_close` -/
  closeStatus : Int
deriving DecidableEq

/-- One device probe: the native calls made, and `none` when the device
is not reported, `some pspec` when it is added with advisory spec
`pspec` (`none` = unknown spec, the `pspec = NULL` path of line 373). -/
def probeDevice (card : Int) (deviceno : Nat) (deviceHiddenHandle : Int)
    (env : ProbeEnv) : List NativeCall × Option (Option (Nat × Nat × Nat)) :=
  if env.longnameOk = false then ([NativeCall.cardLongname card], none)
  else
    let t1 := [NativeCall.cardLongname card, NativeCall.pcmOpen card deviceno]
    if env.openStatus ≠ 0 then (t1, none)
    else
      let t2 := t1 ++ [NativeCall.pluginSetup deviceHiddenHandle]
      let pspec := if env.setupStatus < 0 then none else some env.setupSpec
      let t3 := t2 ++ [NativeCall.pcmClose env.tentativeHandle]
      if env.closeStatus = 0 then (t3, some pspec) else (t3, none)

/-- C6: evaluation at the failing input.  With the tentative open
returning handle 1 while the out-of-scope `device->hidden->audio_handle`
expression denotes 7, the setup query is issued on handle 7 and never on
the tentative handle 1 — the advisory spec is read from a foreign handle.
The best-effort half does hold: a failed setup still reports the device,
with unknown spec. -/
theorem detect_setup_handle_foreign :
    (probeDevice 0 0 7 ⟨true, 0, 1, 0, (SDL_AUDIO_S16LSB, 2, 44100), 0⟩ =
      ([NativeCall.cardLongname 0, NativeCall.pcmOpen 0 0,
        NativeCall.pluginSetup 7, NativeCall.pcmClose 1],
       some (some (SDL_AUDIO_S16LSB, 2, 44100)))) ∧
    (NativeCall.pluginSetup 1 ∉
      (probeDevice 0 0 7 ⟨true, 0, 1, 0, (SDL_AUDIO_S16LSB, 2, 44100), 0⟩).1) ∧
    ((probeDevice 0 0 7 ⟨true, 0, 1, -22, (0, 0, 0), 0⟩).2 = some none) := by
  decide

end QSA
